import Mathlib

/-!
Verification of the Joule (Brayton) cycle solver (`src/models/joule_process.py`
and `src/models/gas_properties.py`).

The Python code is shallowly embedded over the exact reals: every float
expression of the source becomes the same expression over `ℝ` (`**` becomes
`Real.rpow`, `np.log` becomes `Real.log`, `np.sqrt` becomes `Real.sqrt`).
The solver's state dictionary, whose key set is fixed (1, 2, 3, 4, "2s",
"4s", "2a", "2a_s", "2b", "2c", "2c_s", "2*", "4*"), is embedded as a
structure of `Option State` fields.  Python exceptions are embedded as an
`Except` result: an explicit `raise ValueError(msg)` becomes
`.error (.valueError msg)` and an uncaught dictionary lookup of an absent
key becomes `.error (.keyError k)`.  The step recorder stores records
(title, formula, substituted calculation, result, unit, category); it is
write-only in the source (no solver operation ever reads it back), and the
embedding keeps the ordered list of step titles, which is what the claims
about step emission need.  When an operation raises, the step entries it
appended before raising are discarded together with the rest of the
mutation, since no claim observes them.  Frozen constants that
`__init__` copies out of the gas table (`self.R`, `self.cp_const`,
`self.kappa`, `self.cv_const`) are never reassigned in the source, so they
are embedded as functions of the configured gas rather than as fields.
-/

namespace JouleProc

noncomputable section

/-- The registered gas species keys of `GAS_PROPERTIES`. -/
inductive Gas where
  | air
  | helium
  | nitrogen
  | carbon_dioxide
deriving DecidableEq, Repr

/-- One record of the `GAS_PROPERTIES` table: name, molar mass `M`,
specific gas constant `R`, constant isentropic exponent approximation,
the four cp-polynomial coefficients, the constant cp value and the
validity range of the cp formula. -/
structure GasData where
  name : String
  M : ℝ
  R : ℝ
  kappa_approx : ℝ
  cp_a : ℝ
  cp_b : ℝ
  cp_c : ℝ
  cp_d : ℝ
  cp_const : ℝ
  T_low : ℝ
  T_high : ℝ

/-- The `GAS_PROPERTIES` table of `gas_properties.py`. -/
def GAS_PROPERTIES : Gas → GasData
  | .air =>
      { name := "Luft", M := 28.9647, R := 287.058, kappa_approx := 1.4,
        cp_a := 1047.63, cp_b := -0.372589, cp_c := 9.45304e-4, cp_d := -6.02409e-7,
        cp_const := 1005.0, T_low := 200, T_high := 1600 }
  | .helium =>
      { name := "Helium", M := 4.0026, R := 2077.1, kappa_approx := 1.667,
        cp_a := 5193.0, cp_b := 0, cp_c := 0, cp_d := 0,
        cp_const := 5193.0, T_low := 200, T_high := 2000 }
  | .nitrogen =>
      { name := "Stickstoff", M := 28.0134, R := 296.8, kappa_approx := 1.4,
        cp_a := 1041.0, cp_b := -0.29, cp_c := 0.0007, cp_d := -5e-7,
        cp_const := 1040.0, T_low := 200, T_high := 1600 }
  | .carbon_dioxide =>
      { name := "Kohlendioxid", M := 44.01, R := 188.9, kappa_approx := 1.3,
        cp_a := 820.0, cp_b := 1.2, cp_c := -0.0005, cp_d := 7e-8,
        cp_const := 846.0, T_low := 200, T_high := 1600 }

/-- `cp(T, gas, use_const)` of `gas_properties.py`: the constant value, or
the cubic polynomial `a + b*T + c*T^2 + d*T^3`. -/
def cp (T : ℝ) (gas : Gas) (use_const : Bool) : ℝ :=
  if use_const then (GAS_PROPERTIES gas).cp_const
  else
    (GAS_PROPERTIES gas).cp_a + (GAS_PROPERTIES gas).cp_b * T
      + (GAS_PROPERTIES gas).cp_c * T ^ 2 + (GAS_PROPERTIES gas).cp_d * T ^ 3

/-- `cp_mean(T1, T2, gas, use_const)`: the constant value, or the
arithmetic mean of `cp` at the two temperatures. -/
def cp_mean (T1 T2 : ℝ) (gas : Gas) (use_const : Bool) : ℝ :=
  if use_const then (GAS_PROPERTIES gas).cp_const
  else (cp T1 gas false + cp T2 gas false) / 2

/-- `cv(T, gas, use_const) = cp - R`. -/
def cv (T : ℝ) (gas : Gas) (use_const : Bool) : ℝ :=
  cp T gas use_const - (GAS_PROPERTIES gas).R

/-- `kappa(T, gas, use_const) = cp/cv`, or the constant approximation. -/
def kappa (T : ℝ) (gas : Gas) (use_const : Bool) : ℝ :=
  if use_const then (GAS_PROPERTIES gas).kappa_approx
  else cp T gas false / cv T gas false

/-- `kappa_mean(T1, T2, gas, use_const)`: the constant approximation, or
the arithmetic mean of `kappa` at the two temperatures. -/
def kappa_mean (T1 T2 : ℝ) (gas : Gas) (use_const : Bool) : ℝ :=
  if use_const then (GAS_PROPERTIES gas).kappa_approx
  else (kappa T1 gas false + kappa T2 gas false) / 2

/-- `specific_volume(p, T, gas) = R*T/p`. -/
def specific_volume (p T : ℝ) (gas : Gas) : ℝ :=
  (GAS_PROPERTIES gas).R * T / p

/-- One thermodynamic state record `{"p": _, "T": _, "v": _, "h": _, "s": _}`. -/
structure State where
  p : ℝ
  T : ℝ
  v : ℝ
  h : ℝ
  s : ℝ

/-- The keys the solver ever uses in its state dictionary. -/
inductive Label where
  | n1 | n2 | n3 | n4
  | l2s | l4s
  | l2a | l2a_s | l2b | l2c | l2c_s
  | l2star | l4star
deriving DecidableEq, Repr

/-- The solver's `self.states` dictionary, one optional record per key. -/
structure StateMap where
  st1 : Option State
  st2 : Option State
  st3 : Option State
  st4 : Option State
  st2s : Option State
  st4s : Option State
  st2a : Option State
  st2a_s : Option State
  st2b : Option State
  st2c : Option State
  st2c_s : Option State
  st2star : Option State
  st4star : Option State

/-- The empty state dictionary (a freshly initialized solver). -/
def emptyStates : StateMap :=
  { st1 := none, st2 := none, st3 := none, st4 := none,
    st2s := none, st4s := none,
    st2a := none, st2a_s := none, st2b := none, st2c := none, st2c_s := none,
    st2star := none, st4star := none }

/-- Exceptions the solver can raise: an explicit `raise ValueError(msg)`,
or an uncaught `KeyError` from reading an absent dictionary key. -/
inductive CalcError where
  | valueError (msg : String)
  | keyError (key : Label)
deriving DecidableEq, Repr

/-- The `JouleProcessCalculator` object: configuration parameters, the
state dictionary and the ordered list of recorded step titles. -/
structure JouleProcessCalculator where
  gas : Gas
  use_const_cp : Bool
  regeneration : Bool
  reg_eff : ℝ
  compressor_efficiency : ℝ
  turbine_efficiency : ℝ
  mass_flow : Option ℝ
  intercooling : Bool
  intercooling_temperature : Option ℝ
  intercooling_pressure_ratio : Option ℝ
  states : StateMap
  steps : List String

namespace JouleProcessCalculator

/-- `self.R`, frozen from the gas table by `__init__`. -/
def R (c : JouleProcessCalculator) : ℝ := (GAS_PROPERTIES c.gas).R

/-- `self.cp_const`, frozen by `__init__` when `use_const_cp`. -/
def cp_const (c : JouleProcessCalculator) : ℝ := (GAS_PROPERTIES c.gas).cp_const

/-- `self.kappa`, frozen by `__init__` when `use_const_cp`. -/
def kappa0 (c : JouleProcessCalculator) : ℝ := (GAS_PROPERTIES c.gas).kappa_approx

end JouleProcessCalculator

/-- `JouleProcessCalculator(gas, use_const_cp)`: the constructor's
parameter defaults, an empty state dictionary and an empty step log. -/
def initCalc (gas : Gas) (use_const_cp : Bool) : JouleProcessCalculator :=
  { gas := gas, use_const_cp := use_const_cp,
    regeneration := false, reg_eff := 0.0,
    compressor_efficiency := 1.0, turbine_efficiency := 1.0,
    mass_flow := none,
    intercooling := false, intercooling_temperature := none,
    intercooling_pressure_ratio := none,
    states := emptyStates, steps := [] }

/-- `set_parameters(...)`: stores the parameters and records one step
(two when intercooling is requested). -/
def set_parameters (c : JouleProcessCalculator)
    (regeneration : Bool) (reg_eff compressor_efficiency turbine_efficiency : ℝ)
    (mass_flow : Option ℝ) (intercooling : Bool)
    (intercooling_temperature intercooling_pressure_ratio : Option ℝ) :
    JouleProcessCalculator :=
  { c with
    regeneration := regeneration, reg_eff := reg_eff,
    compressor_efficiency := compressor_efficiency,
    turbine_efficiency := turbine_efficiency,
    mass_flow := mass_flow,
    intercooling := intercooling,
    intercooling_temperature := intercooling_temperature,
    intercooling_pressure_ratio := intercooling_pressure_ratio,
    steps := c.steps ++ ["Parameter für den JOULE-Prozess"]
      ++ (if intercooling then ["Parameter für die Zwischenkühlung"] else []) }

/-- `calculate_state_1(p1, T1)`: stores state 1 with `v` from
`specific_volume` and the enthalpy/entropy reference `h1 = s1 = 0`. -/
def calculate_state_1 (c : JouleProcessCalculator) (p1 T1 : ℝ) :
    JouleProcessCalculator :=
  let v1 := specific_volume p1 T1 c.gas
  { c with
    steps := c.steps ++ ["Zustand 1 (Verdichtereintritt)", "Spezifisches Volumen v₁",
      "Spezifische Enthalpie h₁", "Spezifische Entropie s₁"],
    states := { c.states with st1 := some { p := p1, T := T1, v := v1, h := 0, s := 0 } } }

/-- The state-2s record computed by `calculate_state_2_isentropic` from the
state-1 record: κ (frozen constant, or `kappa_mean` seeded with the 0.2
pre-estimate), `T2s = T1*(p2/p1)^((κ-1)/κ)`, `v` from `specific_volume`,
`h2s = h1 + cp*(T2s-T1)` and `s2s = s1`. -/
def state_2s_of (c : JouleProcessCalculator) (s1rec : State) (p2 : ℝ) : State :=
  let p1 := s1rec.p
  let T1 := s1rec.T
  let k := if c.use_const_cp then c.kappa0
           else kappa_mean T1 (T1 * (p2 / p1) ^ (0.2 : ℝ)) c.gas false
  let T2s := T1 * (p2 / p1) ^ ((k - 1) / k)
  let v2s := specific_volume p2 T2s c.gas
  let cp_val := if c.use_const_cp then c.cp_const else cp_mean T1 T2s c.gas false
  let dh := cp_val * (T2s - T1)
  { p := p2, T := T2s, v := v2s, h := s1rec.h + dh, s := s1rec.s }

/-- The step titles `calculate_state_2_isentropic` records. -/
def isentropic2Titles : List String :=
  ["Zustand 2s (isentroper Verdichteraustritt)",
   "Isentropenexponent κ für die Verdichtung",
   "Temperatur T₂ₛ (isentrop)", "Temperatur T₂ₛ in °C",
   "Spezifisches Volumen v₂ₛ", "Spezifische Wärmekapazität cₚ",
   "Enthalpiedifferenz Δh₁₂ₛ", "Spezifische Enthalpie h₂ₛ",
   "Spezifische Entropie s₂ₛ"]

/-- `calculate_state_2_isentropic(p2)`: raises `ValueError` when state 1
is absent, else records its steps and returns the state-2s record
(the caller stores it). -/
def calculate_state_2_isentropic (c : JouleProcessCalculator) (p2 : ℝ) :
    Except CalcError (JouleProcessCalculator × State) :=
  match c.states.st1 with
  | none => .error (.valueError ("Zustand 1 muss zuerst berechnet werden."))
  | some s1rec =>
      .ok ({ c with steps := c.steps ++ isentropic2Titles }, state_2s_of c s1rec p2)

/-- `calculate_state_2_with_intercooling(p2)`: two-stage compression
1 → 2a, isobaric cooling 2a → 2b, second stage 2b → 2c, with the
intermediate pressure `sqrt(p1*p2)` (or the caller's first-stage ratio);
stores 2a, 2a_s, 2b, 2c, 2c_s and aliases 2c as state 2. -/
def calculate_state_2_with_intercooling (c : JouleProcessCalculator) (p2 : ℝ) :
    Except CalcError JouleProcessCalculator :=
  match c.states.st1 with
  | none => .error (.valueError ("Zustand 1 muss zuerst berechnet werden."))
  | some s1rec =>
    let p1 := s1rec.p
    let T1 := s1rec.T
    let p_intermediate :=
      match c.intercooling_pressure_ratio with
      | none => Real.sqrt (p1 * p2)
      | some r => p1 * r
    let k1 := if c.use_const_cp then c.kappa0
              else kappa_mean T1 (T1 * (p_intermediate / p1) ^ (0.2 : ℝ)) c.gas false
    let T2a_s := T1 * (p_intermediate / p1) ^ ((k1 - 1) / k1)
    let T2a := if c.compressor_efficiency < 1 then
                 T1 + (T2a_s - T1) / c.compressor_efficiency
               else T2a_s
    let v2a := specific_volume p_intermediate T2a c.gas
    let cp_val1 := if c.use_const_cp then c.cp_const else cp_mean T1 T2a c.gas false
    let h2a := s1rec.h + cp_val1 * (T2a - T1)
    let s2a := if c.compressor_efficiency < 1 then
                 s1rec.s + ((if c.use_const_cp then c.cp_const else cp_mean T1 T2a c.gas false)
                   * Real.log (T2a / T1) - c.R * Real.log (p_intermediate / p1))
               else s1rec.s
    let T2b := match c.intercooling_temperature with
               | none => T1
               | some t => t
    let v2b := specific_volume p_intermediate T2b c.gas
    let cp_val2 := if c.use_const_cp then c.cp_const else cp_mean T2a T2b c.gas false
    let h2b := h2a + cp_val2 * (T2b - T2a)
    let s2b := s2a + (if c.use_const_cp then c.cp_const else cp_mean T2a T2b c.gas false)
                 * Real.log (T2b / T2a)
    let k2 := if c.use_const_cp then c.kappa0
              else kappa_mean T2b (T2b * (p2 / p_intermediate) ^ (0.2 : ℝ)) c.gas false
    let T2c_s := T2b * (p2 / p_intermediate) ^ ((k2 - 1) / k2)
    let T2c := if c.compressor_efficiency < 1 then
                 T2b + (T2c_s - T2b) / c.compressor_efficiency
               else T2c_s
    let v2c := specific_volume p2 T2c c.gas
    let cp_val3 := if c.use_const_cp then c.cp_const else cp_mean T2b T2c c.gas false
    let h2c := h2b + cp_val3 * (T2c - T2b)
    let s2c := if c.compressor_efficiency < 1 then
                 s2b + ((if c.use_const_cp then c.cp_const else cp_mean T2b T2c c.gas false)
                   * Real.log (T2c / T2b) - c.R * Real.log (p2 / p_intermediate))
               else s2b
    let rec2c : State := { p := p2, T := T2c, v := v2c, h := h2c, s := s2c }
    .ok { c with
      steps := c.steps
        ++ (match c.intercooling_pressure_ratio with
            | none => ["Optimaler Zwischendruck"]
            | some _ => ["Benutzerdefinierter Zwischendruck"])
        ++ ["Zustand 2a (nach erster Verdichtungsstufe)", "Temperatur T₂ₐₛ (isentrop)"]
        ++ (if c.compressor_efficiency < 1 then
              ["Reale Temperaturänderung ΔT₁₂ₐ", "Temperatur T₂ₐ"]
            else ["Temperatur T₂ₐ"])
        ++ ["Zustand 2b (nach Zwischenkühlung)", "Temperatur nach Zwischenkühlung",
            "Zustand 2c (nach zweiter Verdichtungsstufe)", "Temperatur T₂ₖₛ (isentrop)"]
        ++ (if c.compressor_efficiency < 1 then
              ["Reale Temperaturänderung ΔT₂ᵦ₂ₖ", "Temperatur T₂ₖ"]
            else ["Temperatur T₂ₖ"]),
      states := { c.states with
        st2a := some { p := p_intermediate, T := T2a, v := v2a, h := h2a, s := s2a },
        st2a_s := some { p := p_intermediate, T := T2a_s,
                         v := specific_volume p_intermediate T2a_s c.gas,
                         h := s1rec.h + cp_val1 * (T2a_s - T1), s := s1rec.s },
        st2b := some { p := p_intermediate, T := T2b, v := v2b, h := h2b, s := s2b },
        st2c := some rec2c,
        st2c_s := some { p := p2, T := T2c_s, v := specific_volume p2 T2c_s c.gas,
                         h := h2b + cp_val3 * (T2c_s - T2b), s := s2b },
        st2 := some rec2c } }

/-- `calculate_state_2(p2)`: dispatches on the intercooling flag; the
single-stage path stores the 2s record, applies the compressor-efficiency
branch (`η_c < 1` inflates ΔT by `1/η_c`, otherwise the real state copies
the isentropic T and h), then computes v, the entropy-generation Δs and
stores state 2. -/
def calculate_state_2 (c : JouleProcessCalculator) (p2 : ℝ) :
    Except CalcError JouleProcessCalculator :=
  if c.intercooling then calculate_state_2_with_intercooling c p2
  else
    match c.states.st1 with
    | none => .error (.valueError ("Zustand 1 muss zuerst berechnet werden."))
    | some s1rec =>
      let state_2s := state_2s_of c s1rec p2
      let h1 := s1rec.h
      let h2s := state_2s.h
      let T1 := s1rec.T
      let T2s := state_2s.T
      let cp_val := if c.use_const_cp then c.cp_const else (h2s - h1) / (T2s - T1)
      let dT_real := (T2s - T1) / c.compressor_efficiency
      let T2 := if c.compressor_efficiency < 1 then T1 + dT_real else T2s
      let h2 := if c.compressor_efficiency < 1 then h1 + cp_val * dT_real else h2s
      let v2 := specific_volume p2 T2 c.gas
      let ds :=
        if c.use_const_cp then
          c.cp_const * Real.log (T2 / s1rec.T) - c.R * Real.log (p2 / s1rec.p)
        else
          cp_mean s1rec.T T2 c.gas false * Real.log (T2 / s1rec.T)
            - c.R * Real.log (p2 / s1rec.p)
      let s2 := s1rec.s + ds
      .ok { c with
        steps := c.steps ++ isentropic2Titles ++ ["Zustand 2 (realer Verdichteraustritt)"]
          ++ (if c.compressor_efficiency < 1 then
                (if c.use_const_cp then []
                 else ["Effektiver cp-Wert für isentrope Verdichtung"])
                ++ ["Reale Temperaturänderung ΔT₁₂", "Temperatur T₂",
                    "Reale Enthalpieänderung Δh₁₂", "Spezifische Enthalpie h₂"]
              else ["Temperatur und Enthalpie T₂, h₂"])
          ++ ["Temperatur T₂ in °C", "Spezifisches Volumen v₂",
              "Entropieänderung Δs₁₂", "Spezifische Entropie s₂"],
        states := { c.states with
                    st2s := some state_2s,
                    st2 := some { p := p2, T := T2, v := v2, h := h2, s := s2 } } }

/-- `calculate_state_3(p3, T3)`: performs no explicit prerequisite check;
the first read of `self.states[2]` (for the cp/enthalpy step) raises a
bare `KeyError` when state 2 is absent.  On success stores state 3 with
Δh and Δs computed relative to state 2. -/
def calculate_state_3 (c : JouleProcessCalculator) (p3 T3 : ℝ) :
    Except CalcError JouleProcessCalculator :=
  let v3 := specific_volume p3 T3 c.gas
  match c.states.st2 with
  | none => .error (.keyError .n2)
  | some s2rec =>
    let cp_val := if c.use_const_cp then c.cp_const else cp_mean s2rec.T T3 c.gas false
    let dh := cp_val * (T3 - s2rec.T)
    let h3 := s2rec.h + dh
    let ds :=
      if c.use_const_cp then
        c.cp_const * Real.log (T3 / s2rec.T) - c.R * Real.log (p3 / s2rec.p)
      else
        cp_mean s2rec.T T3 c.gas false * Real.log (T3 / s2rec.T)
          - c.R * Real.log (p3 / s2rec.p)
    let s3 := s2rec.s + ds
    .ok { c with
      steps := c.steps ++ ["Zustand 3 (Turbineneintritt)", "Spezifisches Volumen v₃",
        "Spezifische Wärmekapazität cₚ", "Enthalpiedifferenz Δh₂₃",
        "Spezifische Enthalpie h₃", "Entropieänderung Δs₂₃", "Spezifische Entropie s₃"],
      states := { c.states with st3 := some { p := p3, T := T3, v := v3, h := h3, s := s3 } } }

/-- The state-4s record computed by `calculate_state_4_isentropic` from
the state-3 record: κ (frozen constant, or `kappa_mean` seeded with the
0.2 pre-estimate), `T4s = T3*(p4/p3)^((κ-1)/κ)`, `v` from
`specific_volume`, `h4s = h3 + cp*(T4s-T3)` and `s4s = s3`. -/
def state_4s_of (c : JouleProcessCalculator) (s3rec : State) (p4 : ℝ) : State :=
  let p3 := s3rec.p
  let T3 := s3rec.T
  let k := if c.use_const_cp then c.kappa0
           else kappa_mean T3 (T3 * (p4 / p3) ^ (0.2 : ℝ)) c.gas false
  let T4s := T3 * (p4 / p3) ^ ((k - 1) / k)
  let v4s := specific_volume p4 T4s c.gas
  let cp_val := if c.use_const_cp then c.cp_const else cp_mean T3 T4s c.gas false
  let dh := cp_val * (T4s - T3)
  { p := p4, T := T4s, v := v4s, h := s3rec.h + dh, s := s3rec.s }

/-- The step titles `calculate_state_4_isentropic` records. -/
def isentropic4Titles : List String :=
  ["Zustand 4s (isentroper Turbinenaustritt)",
   "Isentropenexponent κ für die Expansion",
   "Temperatur T₄ₛ (isentrop)", "Temperatur T₄ₛ in °C",
   "Spezifisches Volumen v₄ₛ", "Spezifische Wärmekapazität cₚ",
   "Enthalpiedifferenz Δh₃₄ₛ", "Spezifische Enthalpie h₄ₛ",
   "Spezifische Entropie s₄ₛ"]

/-- `calculate_state_4_isentropic(p4)`: raises `ValueError` when state 3
is absent, else records its steps and returns the state-4s record. -/
def calculate_state_4_isentropic (c : JouleProcessCalculator) (p4 : ℝ) :
    Except CalcError (JouleProcessCalculator × State) :=
  match c.states.st3 with
  | none => .error (.valueError ("Zustand 3 muss zuerst berechnet werden."))
  | some s3rec =>
      .ok ({ c with steps := c.steps ++ isentropic4Titles }, state_4s_of c s3rec p4)

/-- `calculate_state_4(p4)`: stores the 4s record, applies the turbine
efficiency branch (`η_t < 1` attenuates the isentropic drop by the factor
`η_t`, otherwise the real state copies the isentropic T and h), then
computes v, Δs and stores state 4. -/
def calculate_state_4 (c : JouleProcessCalculator) (p4 : ℝ) :
    Except CalcError JouleProcessCalculator :=
  match c.states.st3 with
  | none => .error (.valueError ("Zustand 3 muss zuerst berechnet werden."))
  | some s3rec =>
    let state_4s := state_4s_of c s3rec p4
    let h3 := s3rec.h
    let h4s := state_4s.h
    let T3 := s3rec.T
    let T4s := state_4s.T
    let cp_val := if c.use_const_cp then c.cp_const else (h4s - h3) / (T4s - T3)
    let dT_real := (T3 - T4s) * c.turbine_efficiency
    let T4 := if c.turbine_efficiency < 1 then T3 - dT_real else T4s
    let h4 := if c.turbine_efficiency < 1 then h3 + cp_val * (T4 - T3) else h4s
    let v4 := specific_volume p4 T4 c.gas
    let ds :=
      if c.use_const_cp then
        c.cp_const * Real.log (T4 / s3rec.T) - c.R * Real.log (p4 / s3rec.p)
      else
        cp_mean s3rec.T T4 c.gas false * Real.log (T4 / s3rec.T)
          - c.R * Real.log (p4 / s3rec.p)
    let s4 := s3rec.s + ds
    .ok { c with
      steps := c.steps ++ isentropic4Titles ++ ["Zustand 4 (realer Turbinenaustritt)"]
        ++ (if c.turbine_efficiency < 1 then
              (if c.use_const_cp then []
               else ["Effektiver cp-Wert für isentrope Expansion"])
              ++ ["Reale Temperaturänderung ΔT₃₄", "Temperatur T₄",
                  "Reale Enthalpieänderung Δh₃₄", "Spezifische Enthalpie h₄"]
            else ["Temperatur und Enthalpie T₄, h₄"])
        ++ ["Temperatur T₄ in °C", "Spezifisches Volumen v₄",
            "Entropieänderung Δs₃₄", "Spezifische Entropie s₄"],
      states := { c.states with
                  st4s := some state_4s,
                  st4 := some { p := p4, T := T4, v := v4, h := h4, s := s4 } } }

/-- `calculate_optimal_pressure_ratio()`: reads `self.states[1]["T"]`
unconditionally (a bare `KeyError` when state 1 is absent); when state 3
is absent it records one explanatory step and returns `(None, None)`;
otherwise it computes `π_opt = (T3/T1)^(κ/(2(κ-1)))` (with the frozen κ,
or `kappa_mean(T1,T3)`) and the resulting optimal T2. -/
def calculate_optimal_pressure_ratio (c : JouleProcessCalculator) :
    Except CalcError (JouleProcessCalculator × Option ℝ × Option ℝ) :=
  match c.states.st1 with
  | none => .error (.keyError .n1)
  | some s1rec =>
    let T1 := s1rec.T
    match c.states.st3 with
    | none =>
        .ok ({ c with
               steps := c.steps
                 ++ ["Optimales Druckverhältnis konnte nicht berechnet werden"] },
             none, none)
    | some s3rec =>
      let T3 := s3rec.T
      let kap := if c.use_const_cp then c.kappa0 else kappa_mean T1 T3 c.gas false
      let pi_opt := (T3 / T1) ^ (kap / (2 * (kap - 1)))
      let T2_opt :=
        if c.use_const_cp then T1 * pi_opt ^ ((c.kappa0 - 1) / c.kappa0)
        else
          let kappa_12 := kappa_mean T1 (T1 * pi_opt ^ (0.3 : ℝ)) c.gas false
          T1 * pi_opt ^ ((kappa_12 - 1) / kappa_12)
      .ok ({ c with
             steps := c.steps
               ++ ["Optimales Druckverhältnis π_opt", "Optimale Temperatur T₂"] },
           some pi_opt, some T2_opt)

/-- `calculate_regeneration(pinch_point)`: a no-op unless regeneration is
enabled with positive effectiveness; raises `ValueError` when state 2 or
state 4 is absent; when `T4 <= T2 + pinch_point` records the
"Keine Regeneration möglich" step and leaves the state dictionary
unchanged; otherwise computes T2* (pinch-limited), the energy-balance
mirror T4*, and stores the 2* and 4* records with isobaric Δh and Δs. -/
def calculate_regeneration (c : JouleProcessCalculator) (pinch_point : ℝ) :
    Except CalcError JouleProcessCalculator :=
  if c.regeneration = false ∨ c.reg_eff ≤ 0 then .ok c
  else
    match c.states.st2, c.states.st4 with
    | some s2rec, some s4rec =>
      let T2 := s2rec.T
      let T4 := s4rec.T
      if T4 ≤ T2 + pinch_point then
        .ok { c with
          steps := c.steps ++ ["Regeneration (Wärmerückgewinnung)",
            "Temperaturen für Regeneration", "Keine Regeneration möglich"] }
      else
        let T2_star :=
          if pinch_point > 0 then min (T4 - pinch_point) (T2 + c.reg_eff * (T4 - T2))
          else min (T2 + c.reg_eff * (T4 - T2)) T4
        let T4_star := T4 - (T2_star - T2)
        let p2_star := s2rec.p
        let v2_star := specific_volume p2_star T2_star c.gas
        let cp_val2 := if c.use_const_cp then c.cp_const else cp_mean T2 T2_star c.gas false
        let h2_star := s2rec.h + cp_val2 * (T2_star - T2)
        let ds_2_2star := (if c.use_const_cp then c.cp_const
                           else cp_mean T2 T2_star c.gas false) * Real.log (T2_star / T2)
        let s2_star := s2rec.s + ds_2_2star
        let p4_star := s4rec.p
        let v4_star := specific_volume p4_star T4_star c.gas
        let cp_val4 := if c.use_const_cp then c.cp_const else cp_mean T4 T4_star c.gas false
        let h4_star := s4rec.h + cp_val4 * (T4_star - T4)
        let ds_4_4star := (if c.use_const_cp then c.cp_const
                           else cp_mean T4 T4_star c.gas false) * Real.log (T4_star / T4)
        let s4_star := s4rec.s + ds_4_4star
        .ok { c with
          steps := c.steps ++ ["Regeneration (Wärmerückgewinnung)",
              "Temperaturen für Regeneration"]
            ++ (if pinch_point > 0 then
                  ["Maximale Temperatur T₂* (Pinch-Point-Beschränkung)"]
                else [])
            ++ ["Temperatur T₂* nach Regeneration (Hochdruckseite)",
                "Temperatur T₄* nach Regeneration (Niederdruckseite)",
                "Enthalpieänderung Δh₂₂*", "Entropieänderung Δs₂₂* (isobar)",
                "Enthalpieänderung Δh₄₄*", "Entropieänderung Δs₄₄* (isobar)"],
          states := { c.states with
            st2star := some { p := p2_star, T := T2_star, v := v2_star,
                              h := h2_star, s := s2_star },
            st4star := some { p := p4_star, T := T4_star, v := v4_star,
                              h := h4_star, s := s4_star } } }
    | _, _ => .error (.valueError ("Zustände 2 und 4 müssen zuerst berechnet werden."))

/-- The dictionary `calculate_process_properties` returns.  Keys the
source adds only conditionally (stage works and intercooling duty, the
regenerator duty, the mass-flow powers, π and τ) are `Option` fields. -/
structure ProcessProps where
  w_comp : ℝ
  w_turb : ℝ
  w_kp : ℝ
  q_in : ℝ
  q_out : ℝ
  eta_th : ℝ
  T_m_zu : ℝ
  T_m_ab : ℝ
  w_comp1 : Option ℝ
  w_comp2 : Option ℝ
  q_intercool : Option ℝ
  q_reg : Option ℝ
  P_comp : Option ℝ
  P_turb : Option ℝ
  P_kp : Option ℝ
  Q_in : Option ℝ
  Q_out : Option ℝ
  P_comp1 : Option ℝ
  P_comp2 : Option ℝ
  Q_intercool : Option ℝ
  Q_reg : Option ℝ
  pi : Option ℝ
  tau : Option ℝ

/-- `calculate_process_properties()`: cycle works, heats, efficiency and
mean temperatures from the completed state dictionary.  The source reads
states 1-4 lazily and would raise `KeyError` at its first absent read;
the embedding requires states 1-4 up front (in key order), which agrees
with the source on every dictionary the solver operations can produce.
`has_intercooling` is presence of 2a, 2b and 2c; the regenerative
variants of q_in/q_out/T_m require the flag and the starred state. -/
def calculate_process_properties (c : JouleProcessCalculator) :
    Except CalcError (JouleProcessCalculator × ProcessProps) :=
  match c.states.st1 with
  | none => .error (.keyError .n1)
  | some r1 =>
  match c.states.st2 with
  | none => .error (.keyError .n2)
  | some r2 =>
  match c.states.st3 with
  | none => .error (.keyError .n3)
  | some r3 =>
  match c.states.st4 with
  | none => .error (.keyError .n4)
  | some r4 =>
  let stageWork : Option (ℝ × ℝ × ℝ) :=
    match c.states.st2a, c.states.st2b, c.states.st2c with
    | some r2a, some r2b, some r2c =>
        some (r1.h - r2a.h, r2b.h - r2c.h, r2a.h - r2b.h)
    | _, _, _ => none
  let w_comp :=
    match stageWork with
    | some (w1, w2, _) => w1 + w2
    | none => r1.h - r2.h
  let w_turb := r3.h - r4.h
  let w_kp := w_comp + w_turb
  let q_in :=
    match c.regeneration, c.states.st2star with
    | true, some r2st => r3.h - r2st.h
    | _, _ => r3.h - r2.h
  let q_out :=
    match c.regeneration, c.states.st4star with
    | true, some r4st => r4st.h - r1.h
    | _, _ => r4.h - r1.h
  let eta_th := w_kp / q_in
  let T_m_zu :=
    match c.regeneration, c.states.st2star with
    | true, some r2st => (r3.T - r2st.T) / Real.log (r3.T / r2st.T)
    | _, _ => (r3.T - r2.T) / Real.log (r3.T / r2.T)
  let T_m_ab :=
    match c.regeneration, c.states.st4star with
    | true, some r4st => (r4st.T - r1.T) / Real.log (r4st.T / r1.T)
    | _, _ => (r4.T - r1.T) / Real.log (r4.T / r1.T)
  let q_reg : Option ℝ :=
    match c.regeneration, c.states.st2star, c.states.st4star with
    | true, some r2st, some _ => some (r2st.h - r2.h)
    | _, _, _ => none
  .ok ({ c with
    steps := c.steps
      ++ (match stageWork with
          | some _ =>
              ["Spezifische Verdichterarbeit erste Stufe w_c1",
               "Spezifische Verdichterarbeit zweite Stufe w_c2",
               "Gesamte spezifische Verdichterarbeit w_c",
               "Spezifische Wärmeabfuhr bei Zwischenkühlung q_intercool"]
          | none => ["Spezifische Verdichterarbeit w_c"])
      ++ ["Spezifische Turbinenarbeit w_t", "Spezifische Kreisprozessarbeit w_KP",
          "Spezifische Wärmezufuhr q_zu", "Spezifische Wärmeabfuhr q_ab",
          "Thermischer Wirkungsgrad η_th", "Mittlere Temperatur der Wärmezufuhr",
          "Mittlere Temperatur der Wärmeabfuhr"]
      ++ (match q_reg with
          | some _ => ["Spezifische Wärme im Regenerator q_reg"]
          | none => []) },
   { w_comp := w_comp, w_turb := w_turb, w_kp := w_kp,
     q_in := q_in, q_out := q_out, eta_th := eta_th,
     T_m_zu := T_m_zu, T_m_ab := T_m_ab,
     w_comp1 := stageWork.map (fun w => w.1),
     w_comp2 := stageWork.map (fun w => w.2.1),
     q_intercool := stageWork.map (fun w => w.2.2),
     q_reg := q_reg,
     P_comp := c.mass_flow.map (fun m => m * w_comp),
     P_turb := c.mass_flow.map (fun m => m * w_turb),
     P_kp := c.mass_flow.map (fun m => m * w_kp),
     Q_in := c.mass_flow.map (fun m => m * q_in),
     Q_out := c.mass_flow.map (fun m => m * q_out),
     P_comp1 :=
       match c.mass_flow, stageWork with
       | some m, some (w1, _, _) => some (m * w1)
       | _, _ => none,
     P_comp2 :=
       match c.mass_flow, stageWork with
       | some m, some (_, w2, _) => some (m * w2)
       | _, _ => none,
     Q_intercool :=
       match c.mass_flow, stageWork with
       | some m, some (_, _, qi) => some (m * qi)
       | _, _ => none,
     Q_reg :=
       match c.mass_flow, q_reg with
       | some m, some qr => some (m * qr)
       | _, _ => none,
     pi := some (r2.p / r1.p),
     tau := some (r3.T / r1.T) })

/-! Observation helpers for stating properties of operation results. -/

/-- Whether an operation result is a normal return (no exception). -/
def isOk {α : Type} (e : Except CalcError α) : Bool :=
  match e with
  | .ok _ => true
  | .error _ => false

/-- The state dictionary of a normal return. -/
def okStates (e : Except CalcError JouleProcessCalculator) : Option StateMap :=
  match e with
  | .ok c => some c.states
  | .error _ => none

/-- The stored temperature of state 2, out of an operation result. -/
def temp2 (e : Except CalcError JouleProcessCalculator) : Option ℝ :=
  ((okStates e).bind StateMap.st2).map State.T

/-- The stored temperature of state 2s, out of an operation result. -/
def temp2s (e : Except CalcError JouleProcessCalculator) : Option ℝ :=
  ((okStates e).bind StateMap.st2s).map State.T

/-- The stored entropy of state 2, out of an operation result. -/
def entropy2 (e : Except CalcError JouleProcessCalculator) : Option ℝ :=
  ((okStates e).bind StateMap.st2).map State.s

/-- The stored temperature of state 4, out of an operation result. -/
def temp4 (e : Except CalcError JouleProcessCalculator) : Option ℝ :=
  ((okStates e).bind StateMap.st4).map State.T

/-- The stored temperature of state 4s, out of an operation result. -/
def temp4s (e : Except CalcError JouleProcessCalculator) : Option ℝ :=
  ((okStates e).bind StateMap.st4s).map State.T

/-! ## Claims -/

/-- Claim C1 (corrected form).  The operations with an explicit
prerequisite check — `calculate_state_2` in both its single-stage and
intercooled paths (via the state-1 check of `calculate_state_2_isentropic`
resp. `calculate_state_2_with_intercooling`) and `calculate_state_4`
(via `calculate_state_4_isentropic`) — raise the explicit
missing-prerequisite `ValueError` when their predecessor state is absent.
`calculate_state_3`, however, performs no such check: invoked without
state 2 it fails with a bare `KeyError` from the `self.states[2]` lookup
(never silently computing with defaults), not with the
missing-prerequisite `ValueError` the claim describes. -/
theorem c1_prerequisite_errors (c : JouleProcessCalculator) (p2 p3 T3 p4 : ℝ) :
    (c.states.st2 = none → calculate_state_3 c p3 T3 = .error (.keyError .n2))
    ∧ (c.intercooling = false → c.states.st1 = none →
        calculate_state_2 c p2
          = .error (.valueError ("Zustand 1 muss zuerst berechnet werden.")))
    ∧ (c.intercooling = true → c.states.st1 = none →
        calculate_state_2 c p2
          = .error (.valueError ("Zustand 1 muss zuerst berechnet werden.")))
    ∧ (c.states.st3 = none →
        calculate_state_4 c p4
          = .error (.valueError ("Zustand 3 muss zuerst berechnet werden."))) := by
  refine ⟨fun h => ?_, fun hic h => ?_, fun hic h => ?_, fun h => ?_⟩
  · simp [calculate_state_3, h]
  · simp [calculate_state_2, hic, h]
  · simp [calculate_state_2, calculate_state_2_with_intercooling, hic, h]
  · simp [calculate_state_4, h]

/-- Witness for C1's theorem at concrete inputs: a freshly initialized
solver (empty state dictionary), and the same with intercooling switched
on for the intercooled path. -/
theorem c1_prerequisite_errors_witness :
    calculate_state_3 (initCalc .air true) 800000 1273.15 = .error (.keyError .n2)
    ∧ calculate_state_2 (initCalc .air true) 800000
        = .error (.valueError ("Zustand 1 muss zuerst berechnet werden."))
    ∧ calculate_state_2 { initCalc .air true with intercooling := true } 800000
        = .error (.valueError ("Zustand 1 muss zuerst berechnet werden."))
    ∧ calculate_state_4 (initCalc .air true) 100000
        = .error (.valueError ("Zustand 3 muss zuerst berechnet werden.")) :=
  ⟨(c1_prerequisite_errors (initCalc .air true) 800000 800000 1273.15 100000).1 rfl,
   (c1_prerequisite_errors (initCalc .air true) 800000 800000 1273.15 100000).2.1 rfl rfl,
   (c1_prerequisite_errors { initCalc .air true with intercooling := true }
       800000 800000 1273.15 100000).2.2.1 rfl rfl,
   (c1_prerequisite_errors (initCalc .air true) 800000 800000 1273.15 100000).2.2.2 rfl⟩

/-- Counterexample to C1 as stated: on a fresh solver,
`calculate_state_3` fails with the bare `KeyError`, not with the
missing-prerequisite `ValueError` ("such an error, just as
calculate_state_2 does") that the claim asserts; `calculate_state_2`
does raise the explicit `ValueError`. -/
theorem c1_counterexample :
    calculate_state_3 (initCalc .air true) 800000 1273.15 = .error (.keyError .n2)
    ∧ calculate_state_3 (initCalc .air true) 800000 1273.15
        ≠ .error (.valueError ("Zustand 2 muss zuerst berechnet werden."))
    ∧ calculate_state_2 (initCalc .air true) 800000
        = .error (.valueError ("Zustand 1 muss zuerst berechnet werden.")) := by
  refine ⟨rfl, fun hcontra => ?_, rfl⟩
  have h1 : calculate_state_3 (initCalc .air true) 800000 1273.15
      = .error (.keyError .n2) := rfl
  rw [h1] at hcontra
  simp at hcontra

/-- Claim C2 (corrected form).  `calculate_optimal_pressure_ratio` reads
`self.states[1]` unconditionally, so with state 1 absent it fails with a
`KeyError` instead of reporting "undetermined"; only with state 1 present
and state 3 absent does it record the explanatory step and return
`(None, None)`.  With both states present (constant-cp mode) it returns
`π_opt = (T3/T1)^(κ/(2(κ-1)))` and the resulting optimal T2. -/
theorem c2_optimal_pressure_ratio_behaviour (c : JouleProcessCalculator) :
    (c.states.st1 = none →
        calculate_optimal_pressure_ratio c = .error (.keyError .n1))
    ∧ (∀ r1, c.states.st1 = some r1 → c.states.st3 = none →
        calculate_optimal_pressure_ratio c
          = .ok ({ c with steps := c.steps
                     ++ ["Optimales Druckverhältnis konnte nicht berechnet werden"] },
                 none, none))
    ∧ (∀ r1 r3, c.states.st1 = some r1 → c.states.st3 = some r3 →
        c.use_const_cp = true →
        calculate_optimal_pressure_ratio c
          = .ok ({ c with steps := c.steps
                     ++ ["Optimales Druckverhältnis π_opt", "Optimale Temperatur T₂"] },
                 some ((r3.T / r1.T) ^ ((GAS_PROPERTIES c.gas).kappa_approx
                        / (2 * ((GAS_PROPERTIES c.gas).kappa_approx - 1)))),
                 some (r1.T * ((r3.T / r1.T) ^ ((GAS_PROPERTIES c.gas).kappa_approx
                        / (2 * ((GAS_PROPERTIES c.gas).kappa_approx - 1))))
                        ^ (((GAS_PROPERTIES c.gas).kappa_approx - 1)
                           / (GAS_PROPERTIES c.gas).kappa_approx)))) := by
  refine ⟨fun h => ?_, fun r1 h1 h3 => ?_, fun r1 r3 h1 h3 hconst => ?_⟩
  · simp [calculate_optimal_pressure_ratio, h]
  · simp [calculate_optimal_pressure_ratio, h1, h3]
  · simp [calculate_optimal_pressure_ratio, h1, h3, hconst,
      JouleProcessCalculator.kappa0]

/-- A solver holding only states 1 and 3 (inlet and turbine inlet),
for exercising `calculate_optimal_pressure_ratio`. -/
def optDemo : JouleProcessCalculator :=
  { initCalc .air true with
    states := { emptyStates with
      st1 := some { p := 100000, T := 293.15,
                    v := specific_volume 100000 293.15 .air, h := 0, s := 0 },
      st3 := some { p := 800000, T := 1273.15,
                    v := specific_volume 800000 1273.15 .air, h := 985000, s := 700 } } }

/-- Witness for C2's theorem: the state-3-absent branch on a solver with
only state 1, and the both-present branch on `optDemo`. -/
theorem c2_optimal_pressure_ratio_witness :
    calculate_optimal_pressure_ratio (calculate_state_1 (initCalc .air true) 100000 293.15)
      = .ok ({ calculate_state_1 (initCalc .air true) 100000 293.15 with
               steps := (calculate_state_1 (initCalc .air true) 100000 293.15).steps
                 ++ ["Optimales Druckverhältnis konnte nicht berechnet werden"] },
             none, none)
    ∧ calculate_optimal_pressure_ratio optDemo
      = .ok ({ optDemo with steps := optDemo.steps
                 ++ ["Optimales Druckverhältnis π_opt", "Optimale Temperatur T₂"] },
             some (((1273.15 : ℝ) / 293.15) ^ ((1.4 : ℝ) / (2 * (1.4 - 1)))),
             some ((293.15 : ℝ) * (((1273.15 : ℝ) / 293.15)
                    ^ ((1.4 : ℝ) / (2 * (1.4 - 1)))) ^ (((1.4 : ℝ) - 1) / 1.4))) := by
  constructor
  · exact (c2_optimal_pressure_ratio_behaviour
      (calculate_state_1 (initCalc .air true) 100000 293.15)).2.1
      { p := 100000, T := 293.15, v := specific_volume 100000 293.15 .air, h := 0, s := 0 }
      rfl rfl
  · exact (c2_optimal_pressure_ratio_behaviour optDemo).2.2
      { p := 100000, T := 293.15, v := specific_volume 100000 293.15 .air, h := 0, s := 0 }
      { p := 800000, T := 1273.15, v := specific_volume 800000 1273.15 .air,
        h := 985000, s := 700 }
      rfl rfl rfl

/-- Counterexample to C2 as stated: with state 1 absent (fresh solver)
the operation does not report "undetermined" — it fails with a
`KeyError` on the unconditional `self.states[1]` read. -/
theorem c2_counterexample :
    calculate_optimal_pressure_ratio (initCalc .air true) = .error (.keyError .n1)
    ∧ isOk (calculate_optimal_pressure_ratio (initCalc .air true)) = false :=
  ⟨rfl, rfl⟩

/-- In constant-cp mode with the default ideal compressor (η_c = 1),
after `calculate_state_1(p1, T1)` and `calculate_state_2(p2)` the stored
entropy of state 2 is exactly
`(cp_const·(κ−1)/κ − R)·ln(p2/p1)`: the code takes `T2 = T2s` but then
recomputes `Δs = cp·ln(T2/T1) − R·ln(p2/p1)` with the table constants. -/
theorem entropy2_const_ideal_aux (gas : Gas) (p1 T1 p2 : ℝ)
    (hp1 : 0 < p1) (hT1 : 0 < T1) (hp2 : 0 < p2) :
    entropy2 (calculate_state_2 (calculate_state_1 (initCalc gas true) p1 T1) p2)
      = some (((GAS_PROPERTIES gas).cp_const
          * (((GAS_PROPERTIES gas).kappa_approx - 1) / (GAS_PROPERTIES gas).kappa_approx)
          - (GAS_PROPERTIES gas).R) * Real.log (p2 / p1)) := by
  have hT1' : T1 ≠ 0 := ne_of_gt hT1
  have hq : 0 < p2 / p1 := div_pos hp2 hp1
  have hη : ¬((1.0 : ℝ) < 1) := by norm_num
  simp [entropy2, okStates, calculate_state_2, calculate_state_1, initCalc,
    state_2s_of, JouleProcessCalculator.kappa0, JouleProcessCalculator.cp_const,
    JouleProcessCalculator.R, emptyStates, if_neg hη]
  rw [mul_div_cancel_left₀ _ hT1', Real.log_rpow hq]
  ring

/-- Claim C3 (corrected form).  For every valid `(p1, T1, p2)` in
constant-cp mode with η_c = 1, the stored entropy of state 2 equals
`(cp_const·(κ−1)/κ − R)·ln(p2/p1)` — which vanishes only when the
configured `kappa_approx` equals `cp/(cp−R)`.  None of the four gas
records satisfies that identity exactly, so s2 differs from s1 = 0 by a
small but real margin (≈ 0.085·ln(p2/p1) J/(kg·K) for air), not by mere
floating error. -/
theorem c3_isentropic_entropy (gas : Gas) (p1 T1 p2 : ℝ)
    (hp1 : 0 < p1) (hT1 : 0 < T1) (hp2 : 0 < p2) :
    entropy2 (calculate_state_2 (calculate_state_1 (initCalc gas true) p1 T1) p2)
      = some (((GAS_PROPERTIES gas).cp_const
          * (((GAS_PROPERTIES gas).kappa_approx - 1) / (GAS_PROPERTIES gas).kappa_approx)
          - (GAS_PROPERTIES gas).R) * Real.log (p2 / p1)) :=
  entropy2_const_ideal_aux gas p1 T1 p2 hp1 hT1 hp2

/-- Witness for C3's theorem at p1 = 1 Pa, T1 = 1 K, p2 = 2 Pa (air). -/
theorem c3_isentropic_entropy_witness :
    entropy2 (calculate_state_2 (calculate_state_1 (initCalc .air true) 1 1) 2)
      = some (((GAS_PROPERTIES .air).cp_const
          * (((GAS_PROPERTIES .air).kappa_approx - 1) / (GAS_PROPERTIES .air).kappa_approx)
          - (GAS_PROPERTIES .air).R) * Real.log (2 / 1)) :=
  c3_isentropic_entropy .air 1 1 2 (by norm_num) (by norm_num) (by norm_num)

/-- Counterexample to C3 as stated: for air at p1 = 1 bar, T1 = 293.15 K,
p2 = 8 bar with η_c = 1 the stored s2 is
`(1005·0.4/1.4 − 287.058)·ln 8 ≈ 0.176 J/(kg·K) > 0`, not s1 = 0: the
table's κ = 1.4 is not exactly `cp/(cp−R) ≈ 1.39983`, so the recomputed
Δs does not vanish. -/
theorem c3_counterexample :
    entropy2 (calculate_state_2 (calculate_state_1 (initCalc .air true) 100000 293.15) 800000)
        ≠ some 0
    ∧ (entropy2 (calculate_state_2 (calculate_state_1 (initCalc .air true) 100000 293.15)
        800000)).isSome = true := by
  have h := entropy2_const_ideal_aux .air 100000 293.15 800000
    (by norm_num) (by norm_num) (by norm_num)
  have hval : ((GAS_PROPERTIES Gas.air).cp_const
      * (((GAS_PROPERTIES Gas.air).kappa_approx - 1) / (GAS_PROPERTIES Gas.air).kappa_approx)
      - (GAS_PROPERTIES Gas.air).R)
      = (1005 : ℝ) * ((1.4 - 1) / 1.4) - 287.058 := by
    norm_num [GAS_PROPERTIES]
  constructor
  · rw [h, hval]
    intro hc
    rw [Option.some_inj] at hc
    have hlog : 0 < Real.log ((800000 : ℝ) / 100000) := by
      apply Real.log_pos; norm_num
    have hA : 0 < (1005 : ℝ) * ((1.4 - 1) / 1.4) - 287.058 := by norm_num
    nlinarith
  · rw [h]; rfl

/-- Claim C4 (confirmed).  Whenever regeneration is enabled with positive
effectiveness, states 2 and 4 are present and `T4 <= T2 + pinch_point`
(the exact-equality boundary included — the source tests the strict
`T4 <= T2 + pinch` and returns), `calculate_regeneration` returns
normally (no exception), adds no 2*/4* records and leaves the state
dictionary exactly as it was; only the step log grows. -/
theorem c4_regeneration_infeasible_frame (c : JouleProcessCalculator)
    (pinch_point : ℝ) (r2 r4 : State)
    (hreg : c.regeneration = true) (heff : 0 < c.reg_eff)
    (h2 : c.states.st2 = some r2) (h4 : c.states.st4 = some r4)
    (hpinch : 0 ≤ pinch_point) (hT : r4.T ≤ r2.T + pinch_point) :
    ∃ c', calculate_regeneration c pinch_point = .ok c' ∧ c'.states = c.states := by
  have hcond : ¬(c.regeneration = false ∨ c.reg_eff ≤ 0) := by
    rintro (h | h)
    · rw [hreg] at h; simp at h
    · exact absurd h (not_le.mpr heff)
  refine ⟨{ c with steps := c.steps ++ ["Regeneration (Wärmerückgewinnung)",
    "Temperaturen für Regeneration", "Keine Regeneration möglich"] }, ?_, rfl⟩
  rw [calculate_regeneration, if_neg hcond]
  simp only [h2, h4]
  rw [if_pos hT]

/-- A solver with regeneration enabled whose states 2 and 4 sit exactly
on the infeasibility boundary `T4 = T2 + pinch_point` for pinch 50 K. -/
def regenDemo : JouleProcessCalculator :=
  { initCalc .air true with
    regeneration := true, reg_eff := 0.8,
    states := { emptyStates with
      st2 := some { p := 800000, T := 450, v := specific_volume 800000 450 .air,
                    h := 160000, s := 10 },
      st4 := some { p := 100000, T := 500, v := specific_volume 100000 500 .air,
                    h := 210000, s := 220 } } }

/-- Witness for C4's theorem on `regenDemo`: T4 = 500 K equals
T2 + pinch = 450 + 50 K exactly, and the state dictionary is untouched. -/
theorem c4_regeneration_infeasible_frame_witness :
    ∃ c', calculate_regeneration regenDemo 50 = .ok c'
      ∧ c'.states = regenDemo.states :=
  c4_regeneration_infeasible_frame regenDemo 50
    { p := 800000, T := 450, v := specific_volume 800000 450 .air, h := 160000, s := 10 }
    { p := 100000, T := 500, v := specific_volume 100000 500 .air, h := 210000, s := 220 }
    rfl (by show (0 : ℝ) < 0.8; norm_num) rfl rfl (by norm_num)
    (by show (500 : ℝ) ≤ 450 + 50; norm_num)

/-! Machinery for Claim C5: the `v = R·T/p` consistency invariant. -/

/-- An optional state record satisfies the consistency invariant: its
stored specific volume is `R·T/p` for the configured gas. -/
def stateVolOk (gas : Gas) (o : Option State) : Prop :=
  ∀ σ, o = some σ → σ.v = (GAS_PROPERTIES gas).R * σ.T / σ.p

/-- Every record of the state dictionary satisfies the invariant. -/
def mapVolOk (gas : Gas) (m : StateMap) : Prop :=
  stateVolOk gas m.st1 ∧ stateVolOk gas m.st2 ∧ stateVolOk gas m.st3
    ∧ stateVolOk gas m.st4 ∧ stateVolOk gas m.st2s ∧ stateVolOk gas m.st4s
    ∧ stateVolOk gas m.st2a ∧ stateVolOk gas m.st2a_s ∧ stateVolOk gas m.st2b
    ∧ stateVolOk gas m.st2c ∧ stateVolOk gas m.st2c_s
    ∧ stateVolOk gas m.st2star ∧ stateVolOk gas m.st4star

theorem stateVolOk_none (gas : Gas) : stateVolOk gas none := by
  intro σ hσ
  cases hσ

theorem stateVolOk_mk (gas : Gas) (p T h s : ℝ) :
    stateVolOk gas
      (some { p := p, T := T, v := specific_volume p T gas, h := h, s := s }) := by
  intro σ hσ
  rw [Option.some_inj] at hσ
  subst hσ
  rfl

theorem stateVolOk_state_2s_of (c : JouleProcessCalculator) (s1rec : State) (p2 : ℝ) :
    stateVolOk c.gas (some (state_2s_of c s1rec p2)) := by
  intro σ hσ
  rw [Option.some_inj] at hσ
  subst hσ
  rfl

theorem stateVolOk_state_4s_of (c : JouleProcessCalculator) (s3rec : State) (p4 : ℝ) :
    stateVolOk c.gas (some (state_4s_of c s3rec p4)) := by
  intro σ hσ
  rw [Option.some_inj] at hσ
  subst hσ
  rfl

/-- The invariant holds of the empty dictionary. -/
theorem mapVolOk_empty (gas : Gas) : mapVolOk gas emptyStates :=
  ⟨stateVolOk_none gas, stateVolOk_none gas, stateVolOk_none gas, stateVolOk_none gas,
   stateVolOk_none gas, stateVolOk_none gas, stateVolOk_none gas, stateVolOk_none gas,
   stateVolOk_none gas, stateVolOk_none gas, stateVolOk_none gas, stateVolOk_none gas,
   stateVolOk_none gas⟩

/-- `calculate_state_1` preserves the invariant. -/
theorem mapVolOk_state_1 (c : JouleProcessCalculator) (p1 T1 : ℝ)
    (hInv : mapVolOk c.gas c.states) :
    mapVolOk c.gas (calculate_state_1 c p1 T1).states := by
  obtain ⟨i1, i2, i3, i4, i5, i6, i7, i8, i9, i10, i11, i12, i13⟩ := hInv
  exact ⟨stateVolOk_mk c.gas p1 T1 0 0, i2, i3, i4, i5, i6, i7, i8, i9, i10, i11, i12, i13⟩

/-- `calculate_state_2_with_intercooling` preserves the invariant. -/
theorem mapVolOk_state_2_ic (c : JouleProcessCalculator) (p2 : ℝ)
    (hInv : mapVolOk c.gas c.states) (c' : JouleProcessCalculator)
    (hok : calculate_state_2_with_intercooling c p2 = .ok c') :
    mapVolOk c.gas c'.states := by
  rw [calculate_state_2_with_intercooling] at hok
  split at hok
  · exact absurd hok (by simp)
  · rw [Except.ok.injEq] at hok
    subst hok
    obtain ⟨i1, i2, i3, i4, i5, i6, i7, i8, i9, i10, i11, i12, i13⟩ := hInv
    exact ⟨i1, stateVolOk_mk _ _ _ _ _, i3, i4, i5, i6, stateVolOk_mk _ _ _ _ _,
      stateVolOk_mk _ _ _ _ _, stateVolOk_mk _ _ _ _ _, stateVolOk_mk _ _ _ _ _,
      stateVolOk_mk _ _ _ _ _, i12, i13⟩

/-- `calculate_state_2` preserves the invariant. -/
theorem mapVolOk_state_2 (c : JouleProcessCalculator) (p2 : ℝ)
    (hInv : mapVolOk c.gas c.states) (c' : JouleProcessCalculator)
    (hok : calculate_state_2 c p2 = .ok c') :
    mapVolOk c.gas c'.states := by
  rw [calculate_state_2] at hok
  split at hok
  · exact mapVolOk_state_2_ic c p2 hInv c' hok
  · split at hok
    · exact absurd hok (by simp)
    · rw [Except.ok.injEq] at hok
      subst hok
      obtain ⟨i1, i2, i3, i4, i5, i6, i7, i8, i9, i10, i11, i12, i13⟩ := hInv
      exact ⟨i1, stateVolOk_mk _ _ _ _ _, i3, i4, stateVolOk_state_2s_of c _ p2, i6,
        i7, i8, i9, i10, i11, i12, i13⟩

/-- `calculate_state_3` preserves the invariant. -/
theorem mapVolOk_state_3 (c : JouleProcessCalculator) (p3 T3 : ℝ)
    (hInv : mapVolOk c.gas c.states) (c' : JouleProcessCalculator)
    (hok : calculate_state_3 c p3 T3 = .ok c') :
    mapVolOk c.gas c'.states := by
  rw [calculate_state_3] at hok
  split at hok
  · exact absurd hok (by simp)
  · rw [Except.ok.injEq] at hok
    subst hok
    obtain ⟨i1, i2, i3, i4, i5, i6, i7, i8, i9, i10, i11, i12, i13⟩ := hInv
    exact ⟨i1, i2, stateVolOk_mk _ _ _ _ _, i4, i5, i6, i7, i8, i9, i10, i11, i12, i13⟩

/-- `calculate_state_4` preserves the invariant. -/
theorem mapVolOk_state_4 (c : JouleProcessCalculator) (p4 : ℝ)
    (hInv : mapVolOk c.gas c.states) (c' : JouleProcessCalculator)
    (hok : calculate_state_4 c p4 = .ok c') :
    mapVolOk c.gas c'.states := by
  rw [calculate_state_4] at hok
  split at hok
  · exact absurd hok (by simp)
  · rw [Except.ok.injEq] at hok
    subst hok
    obtain ⟨i1, i2, i3, i4, i5, i6, i7, i8, i9, i10, i11, i12, i13⟩ := hInv
    exact ⟨i1, i2, i3, stateVolOk_mk _ _ _ _ _, i5, stateVolOk_state_4s_of c _ p4,
      i7, i8, i9, i10, i11, i12, i13⟩

/-- `calculate_regeneration` preserves the invariant. -/
theorem mapVolOk_regeneration (c : JouleProcessCalculator) (pinch : ℝ)
    (hInv : mapVolOk c.gas c.states) (c' : JouleProcessCalculator)
    (hok : calculate_regeneration c pinch = .ok c') :
    mapVolOk c.gas c'.states := by
  rw [calculate_regeneration] at hok
  split at hok
  · rw [Except.ok.injEq] at hok
    subst hok
    exact hInv
  · split at hok
    · dsimp only at hok
      split at hok
      · rw [Except.ok.injEq] at hok
        subst hok
        exact hInv
      · split at hok <;>
        · rw [Except.ok.injEq] at hok
          subst hok
          obtain ⟨i1, i2, i3, i4, i5, i6, i7, i8, i9, i10, i11, i12, i13⟩ := hInv
          exact ⟨i1, i2, i3, i4, i5, i6, i7, i8, i9, i10, i11,
            stateVolOk_mk _ _ _ _ _, stateVolOk_mk _ _ _ _ _⟩
    · exact absurd hok (by simp)

/-- Each gas's specific gas constant is positive. -/
theorem R_pos (gas : Gas) : 0 < (GAS_PROPERTIES gas).R := by
  cases gas <;> norm_num [GAS_PROPERTIES]

/-- Claim C5 (confirmed).  Every state record any solver operation stores
— the principal and all synthetic labels — carries `v = R·T/p` exactly
(`mapVolOk` is preserved by every operation, starting from the empty
dictionary), and therefore `v·p/R = T` whenever `p ≠ 0`. -/
theorem c5_specific_volume_invariant (c : JouleProcessCalculator)
    (p1 T1 p2 p3 T3 p4 pinch : ℝ) (hInv : mapVolOk c.gas c.states) :
    mapVolOk c.gas (calculate_state_1 c p1 T1).states
    ∧ (∀ c', calculate_state_2 c p2 = .ok c' → mapVolOk c.gas c'.states)
    ∧ (∀ c', calculate_state_3 c p3 T3 = .ok c' → mapVolOk c.gas c'.states)
    ∧ (∀ c', calculate_state_4 c p4 = .ok c' → mapVolOk c.gas c'.states)
    ∧ (∀ c', calculate_regeneration c pinch = .ok c' → mapVolOk c.gas c'.states)
    ∧ (∀ p T : ℝ, p ≠ 0 →
        specific_volume p T c.gas * p / (GAS_PROPERTIES c.gas).R = T) := by
  refine ⟨mapVolOk_state_1 c p1 T1 hInv,
    fun c' h => mapVolOk_state_2 c p2 hInv c' h,
    fun c' h => mapVolOk_state_3 c p3 T3 hInv c' h,
    fun c' h => mapVolOk_state_4 c p4 hInv c' h,
    fun c' h => mapVolOk_regeneration c pinch hInv c' h,
    fun p T hp => ?_⟩
  have hR : (GAS_PROPERTIES c.gas).R ≠ 0 := ne_of_gt (R_pos c.gas)
  rw [specific_volume]
  field_simp

/-- Witness for C5's theorem on a fresh solver (the empty dictionary
satisfies the invariant vacuously). -/
theorem c5_specific_volume_invariant_witness :
    mapVolOk (initCalc .air true).gas
        (calculate_state_1 (initCalc .air true) 100000 293.15).states
    ∧ (∀ c', calculate_state_2 (initCalc .air true) 800000 = .ok c' →
        mapVolOk (initCalc .air true).gas c'.states)
    ∧ (∀ c', calculate_state_3 (initCalc .air true) 800000 1273.15 = .ok c' →
        mapVolOk (initCalc .air true).gas c'.states)
    ∧ (∀ c', calculate_state_4 (initCalc .air true) 100000 = .ok c' →
        mapVolOk (initCalc .air true).gas c'.states)
    ∧ (∀ c', calculate_regeneration (initCalc .air true) 0 = .ok c' →
        mapVolOk (initCalc .air true).gas c'.states)
    ∧ (∀ p T : ℝ, p ≠ 0 →
        specific_volume p T (initCalc .air true).gas * p
          / (GAS_PROPERTIES (initCalc .air true).gas).R = T) :=
  c5_specific_volume_invariant (initCalc .air true) 100000 293.15 800000 800000
    1273.15 100000 0 (mapVolOk_empty .air)

/-- Claim C6 (confirmed).  With regeneration enabled but no 2*/4* records
present (regeneration was found infeasible), `calculate_process_properties`
falls back to the non-regenerative formulas: `q_in = h3 − h2`,
`q_out = h4 − h1`, and the returned dictionary carries no `q_reg` key.
This holds for every such dictionary, whether or not the intercooling
records 2a/2b/2c are present (those affect only the compressor-work
split, never the q_in/q_out/q_reg selection). -/
theorem c6_aggregator_regen_fallback (c : JouleProcessCalculator)
    (r1 r2 r3 r4 : State)
    (hreg : c.regeneration = true)
    (hno2 : c.states.st2star = none) (hno4 : c.states.st4star = none)
    (h1 : c.states.st1 = some r1) (h2 : c.states.st2 = some r2)
    (h3 : c.states.st3 = some r3) (h4 : c.states.st4 = some r4) :
    ∃ c' P, calculate_process_properties c = .ok (c', P)
      ∧ P.q_in = r3.h - r2.h ∧ P.q_out = r4.h - r1.h ∧ P.q_reg = none := by
  rw [calculate_process_properties]
  simp only [h1, h2, h3, h4, hno2, hno4, hreg]
  exact ⟨_, _, rfl, rfl, rfl, rfl⟩

/-- A solver with regeneration enabled, all four principal states present
and no 2*/4* records (infeasible regeneration), for the aggregator. -/
def aggDemo : JouleProcessCalculator :=
  { initCalc .air true with
    regeneration := true, reg_eff := 0.8,
    states := { emptyStates with
      st1 := some { p := 100000, T := 293.15,
                    v := specific_volume 100000 293.15 .air, h := 0, s := 0 },
      st2 := some { p := 800000, T := 530, v := specific_volume 800000 530 .air,
                    h := 238000, s := 1 },
      st3 := some { p := 800000, T := 1273.15,
                    v := specific_volume 800000 1273.15 .air, h := 985000, s := 700 },
      st4 := some { p := 100000, T := 703, v := specific_volume 100000 703 .air,
                    h := 412000, s := 710 } } }

/-- `aggDemo` with the intercooling records 2a/2b/2c also present (a
two-stage compression run whose regeneration was found infeasible). -/
def aggDemoIC : JouleProcessCalculator :=
  { aggDemo with
    intercooling := true,
    states := { aggDemo.states with
      st2a := some { p := 283000, T := 400, v := specific_volume 283000 400 .air,
                     h := 107000, s := 5 },
      st2b := some { p := 283000, T := 293.15,
                     v := specific_volume 283000 293.15 .air, h := 0, s := -1 },
      st2c := some { p := 800000, T := 530, v := specific_volume 800000 530 .air,
                     h := 238000, s := 1 } } }

/-- Witness for C6's theorem on `aggDemo` (single-stage dictionary) and
on `aggDemoIC` (intercooled dictionary, 2a/2b/2c present). -/
theorem c6_aggregator_regen_fallback_witness :
    (∃ c' P, calculate_process_properties aggDemo = .ok (c', P)
      ∧ P.q_in = (985000 : ℝ) - 238000 ∧ P.q_out = (412000 : ℝ) - 0
      ∧ P.q_reg = none)
    ∧ (∃ c' P, calculate_process_properties aggDemoIC = .ok (c', P)
      ∧ P.q_in = (985000 : ℝ) - 238000 ∧ P.q_out = (412000 : ℝ) - 0
      ∧ P.q_reg = none) :=
  ⟨c6_aggregator_regen_fallback aggDemo
    { p := 100000, T := 293.15, v := specific_volume 100000 293.15 .air, h := 0, s := 0 }
    { p := 800000, T := 530, v := specific_volume 800000 530 .air, h := 238000, s := 1 }
    { p := 800000, T := 1273.15, v := specific_volume 800000 1273.15 .air,
      h := 985000, s := 700 }
    { p := 100000, T := 703, v := specific_volume 100000 703 .air, h := 412000, s := 710 }
    rfl rfl rfl rfl rfl rfl rfl,
   c6_aggregator_regen_fallback aggDemoIC
    { p := 100000, T := 293.15, v := specific_volume 100000 293.15 .air, h := 0, s := 0 }
    { p := 800000, T := 530, v := specific_volume 800000 530 .air, h := 238000, s := 1 }
    { p := 800000, T := 1273.15, v := specific_volume 800000 1273.15 .air,
      h := 985000, s := 700 }
    { p := 100000, T := 703, v := specific_volume 100000 703 .air, h := 412000, s := 710 }
    rfl rfl rfl rfl rfl rfl rfl⟩

/-- Claim C7 (confirmed).  In constant-cp mode with η_c ∈ (0,1) and
p2 > p1 (p1, T1 > 0, κ > 1), single-stage `calculate_state_2` stores
`T2s = T1·(p2/p1)^((κ−1)/κ)` and `T2 = T1 + (T2s − T1)/η_c`, and the real
rise `(T2s − T1)/η_c` strictly exceeds the isentropic rise `T2s − T1`. -/
theorem c7_compressor_real_rise (c : JouleProcessCalculator) (r1 : State) (p2 : ℝ)
    (h1 : c.states.st1 = some r1) (hic : c.intercooling = false)
    (hconst : c.use_const_cp = true)
    (hη0 : 0 < c.compressor_efficiency) (hη1 : c.compressor_efficiency < 1)
    (hp1 : 0 < r1.p) (hp12 : r1.p < p2) (hT1 : 0 < r1.T)
    (hκ : 1 < (GAS_PROPERTIES c.gas).kappa_approx) :
    temp2s (calculate_state_2 c p2)
        = some (r1.T * (p2 / r1.p) ^ (((GAS_PROPERTIES c.gas).kappa_approx - 1)
            / (GAS_PROPERTIES c.gas).kappa_approx))
    ∧ temp2 (calculate_state_2 c p2)
        = some (r1.T + (r1.T * (p2 / r1.p) ^ (((GAS_PROPERTIES c.gas).kappa_approx - 1)
            / (GAS_PROPERTIES c.gas).kappa_approx) - r1.T) / c.compressor_efficiency)
    ∧ r1.T * (p2 / r1.p) ^ (((GAS_PROPERTIES c.gas).kappa_approx - 1)
            / (GAS_PROPERTIES c.gas).kappa_approx) - r1.T
        < (r1.T * (p2 / r1.p) ^ (((GAS_PROPERTIES c.gas).kappa_approx - 1)
            / (GAS_PROPERTIES c.gas).kappa_approx) - r1.T) / c.compressor_efficiency := by
  refine ⟨?_, ?_, ?_⟩
  · simp [temp2s, okStates, calculate_state_2, state_2s_of, hic, h1, hconst, hη1,
      JouleProcessCalculator.kappa0]
  · simp [temp2, okStates, calculate_state_2, state_2s_of, hic, h1, hconst, hη1,
      JouleProcessCalculator.kappa0]
  · have hq1 : 1 < p2 / r1.p := (one_lt_div hp1).mpr hp12
    have he : 0 < ((GAS_PROPERTIES c.gas).kappa_approx - 1)
        / (GAS_PROPERTIES c.gas).kappa_approx :=
      div_pos (by linarith) (by linarith)
    have hx : (p2 / r1.p) ^ (0 : ℝ)
        < (p2 / r1.p) ^ (((GAS_PROPERTIES c.gas).kappa_approx - 1)
            / (GAS_PROPERTIES c.gas).kappa_approx) :=
      (Real.rpow_lt_rpow_left_iff hq1).mpr he
    rw [Real.rpow_zero] at hx
    have hd : 0 < r1.T * (p2 / r1.p) ^ (((GAS_PROPERTIES c.gas).kappa_approx - 1)
        / (GAS_PROPERTIES c.gas).kappa_approx) - r1.T := by nlinarith
    rw [lt_div_iff₀ hη0]
    exact mul_lt_of_lt_one_right hd hη1

/-- A solver with state 1 at (1 bar, 293.15 K) and η_c = 0.85. -/
def c7Demo : JouleProcessCalculator :=
  { initCalc .air true with
    compressor_efficiency := 0.85,
    states := { emptyStates with
      st1 := some { p := 100000, T := 293.15,
                    v := specific_volume 100000 293.15 .air, h := 0, s := 0 } } }

/-- Witness for C7's theorem on `c7Demo` at p2 = 8 bar. -/
theorem c7_compressor_real_rise_witness :
    temp2s (calculate_state_2 c7Demo 800000)
        = some ((293.15 : ℝ) * ((800000 : ℝ) / 100000) ^ (((1.4 : ℝ) - 1) / 1.4))
    ∧ temp2 (calculate_state_2 c7Demo 800000)
        = some ((293.15 : ℝ) + ((293.15 : ℝ) * ((800000 : ℝ) / 100000)
            ^ (((1.4 : ℝ) - 1) / 1.4) - 293.15) / 0.85)
    ∧ (293.15 : ℝ) * ((800000 : ℝ) / 100000) ^ (((1.4 : ℝ) - 1) / 1.4) - 293.15
        < ((293.15 : ℝ) * ((800000 : ℝ) / 100000) ^ (((1.4 : ℝ) - 1) / 1.4)
            - 293.15) / 0.85 :=
  c7_compressor_real_rise c7Demo
    { p := 100000, T := 293.15, v := specific_volume 100000 293.15 .air, h := 0, s := 0 }
    800000 rfl rfl rfl
    (by show (0 : ℝ) < 0.85; norm_num) (by show (0.85 : ℝ) < 1; norm_num)
    (by show (0 : ℝ) < 100000; norm_num) (by show (100000 : ℝ) < 800000; norm_num)
    (by show (0 : ℝ) < 293.15; norm_num)
    (by show (1 : ℝ) < (GAS_PROPERTIES Gas.air).kappa_approx; norm_num [GAS_PROPERTIES])

/-- Claim C8 (confirmed).  With η_t ∈ (0,1) and p4 < p3 (p3, T3 > 0,
κ > 1, constant-cp mode), `calculate_state_4` stores
`T4s = T3·(p4/p3)^((κ−1)/κ)` and `T4 = T3 − (T3 − T4s)·η_t`
(multiplication by η_t), and the real drop `(T3 − T4s)·η_t` is strictly
smaller than the isentropic drop `T3 − T4s`. -/
theorem c8_turbine_real_drop (c : JouleProcessCalculator) (r3 : State) (p4 : ℝ)
    (h3 : c.states.st3 = some r3) (hconst : c.use_const_cp = true)
    (hη0 : 0 < c.turbine_efficiency) (hη1 : c.turbine_efficiency < 1)
    (hp4 : 0 < p4) (hp43 : p4 < r3.p) (hT3 : 0 < r3.T)
    (hκ : 1 < (GAS_PROPERTIES c.gas).kappa_approx) :
    temp4s (calculate_state_4 c p4)
        = some (r3.T * (p4 / r3.p) ^ (((GAS_PROPERTIES c.gas).kappa_approx - 1)
            / (GAS_PROPERTIES c.gas).kappa_approx))
    ∧ temp4 (calculate_state_4 c p4)
        = some (r3.T - (r3.T - r3.T * (p4 / r3.p)
            ^ (((GAS_PROPERTIES c.gas).kappa_approx - 1)
               / (GAS_PROPERTIES c.gas).kappa_approx)) * c.turbine_efficiency)
    ∧ (r3.T - r3.T * (p4 / r3.p) ^ (((GAS_PROPERTIES c.gas).kappa_approx - 1)
            / (GAS_PROPERTIES c.gas).kappa_approx)) * c.turbine_efficiency
        < r3.T - r3.T * (p4 / r3.p) ^ (((GAS_PROPERTIES c.gas).kappa_approx - 1)
            / (GAS_PROPERTIES c.gas).kappa_approx) := by
  have hp3 : 0 < r3.p := lt_trans hp4 hp43
  refine ⟨?_, ?_, ?_⟩
  · simp [temp4s, okStates, calculate_state_4, state_4s_of, h3, hconst, hη1,
      JouleProcessCalculator.kappa0]
  · simp [temp4, okStates, calculate_state_4, state_4s_of, h3, hconst, hη1,
      JouleProcessCalculator.kappa0]
  · have hq1 : p4 / r3.p < 1 := (div_lt_one hp3).mpr hp43
    have hq0 : 0 ≤ p4 / r3.p := le_of_lt (div_pos hp4 hp3)
    have he : 0 < ((GAS_PROPERTIES c.gas).kappa_approx - 1)
        / (GAS_PROPERTIES c.gas).kappa_approx :=
      div_pos (by linarith) (by linarith)
    have hx : (p4 / r3.p) ^ (((GAS_PROPERTIES c.gas).kappa_approx - 1)
        / (GAS_PROPERTIES c.gas).kappa_approx) < 1 :=
      Real.rpow_lt_one hq0 hq1 he
    have hd : 0 < r3.T - r3.T * (p4 / r3.p)
        ^ (((GAS_PROPERTIES c.gas).kappa_approx - 1)
           / (GAS_PROPERTIES c.gas).kappa_approx) := by nlinarith
    exact mul_lt_of_lt_one_right hd hη1

/-- A solver with state 3 at (8 bar, 1273.15 K) and η_t = 0.9. -/
def c8Demo : JouleProcessCalculator :=
  { initCalc .air true with
    turbine_efficiency := 0.9,
    states := { emptyStates with
      st3 := some { p := 800000, T := 1273.15,
                    v := specific_volume 800000 1273.15 .air, h := 985000, s := 700 } } }

/-- Witness for C8's theorem on `c8Demo` at p4 = 1 bar. -/
theorem c8_turbine_real_drop_witness :
    temp4s (calculate_state_4 c8Demo 100000)
        = some ((1273.15 : ℝ) * ((100000 : ℝ) / 800000) ^ (((1.4 : ℝ) - 1) / 1.4))
    ∧ temp4 (calculate_state_4 c8Demo 100000)
        = some ((1273.15 : ℝ) - ((1273.15 : ℝ) - 1273.15 * ((100000 : ℝ) / 800000)
            ^ (((1.4 : ℝ) - 1) / 1.4)) * 0.9)
    ∧ ((1273.15 : ℝ) - 1273.15 * ((100000 : ℝ) / 800000)
          ^ (((1.4 : ℝ) - 1) / 1.4)) * 0.9
        < (1273.15 : ℝ) - 1273.15 * ((100000 : ℝ) / 800000)
            ^ (((1.4 : ℝ) - 1) / 1.4) :=
  c8_turbine_real_drop c8Demo
    { p := 800000, T := 1273.15, v := specific_volume 800000 1273.15 .air,
      h := 985000, s := 700 }
    100000 rfl rfl
    (by show (0 : ℝ) < 0.9; norm_num) (by show (0.9 : ℝ) < 1; norm_num)
    (by show (0 : ℝ) < 100000; norm_num) (by show (100000 : ℝ) < 800000; norm_num)
    (by show (0 : ℝ) < 1273.15; norm_num)
    (by show (1 : ℝ) < (GAS_PROPERTIES Gas.air).kappa_approx; norm_num [GAS_PROPERTIES])

/-- Claim C9 (confirmed).  Single-stage `calculate_state_2` branches on
`compressor_efficiency < 1.0`; any efficiency ≥ 1 — including values
strictly above the spec's (0,1] range — therefore takes the ideal branch:
the stored state 2 copies the isentropic temperature and enthalpy
unchanged (`T2 = T2s`, `h2 = h2s`), with no rejection and no correction. -/
theorem c9_efficiency_above_one_ideal (c : JouleProcessCalculator)
    (r1 : State) (p2 : ℝ)
    (h1 : c.states.st1 = some r1) (hic : c.intercooling = false)
    (hη : 1 ≤ c.compressor_efficiency) :
    ∃ c', calculate_state_2 c p2 = .ok c'
      ∧ ∃ r2 r2s, c'.states.st2 = some r2 ∧ c'.states.st2s = some r2s
          ∧ r2.T = r2s.T ∧ r2.h = r2s.h := by
  have hη' : ¬(c.compressor_efficiency < 1) := not_lt.mpr hη
  simp only [calculate_state_2, hic, Bool.false_eq_true, if_false, h1, hη']
  exact ⟨_, rfl, _, _, rfl, rfl, rfl, rfl⟩

/-- A solver with state 1 present and an out-of-range η_c = 1.5. -/
def c9Demo : JouleProcessCalculator :=
  { initCalc .air true with
    compressor_efficiency := 1.5,
    states := { emptyStates with
      st1 := some { p := 100000, T := 293.15,
                    v := specific_volume 100000 293.15 .air, h := 0, s := 0 } } }

/-- Witness for C9's theorem on `c9Demo` (η_c = 1.5 > 1). -/
theorem c9_efficiency_above_one_ideal_witness :
    ∃ c', calculate_state_2 c9Demo 800000 = .ok c'
      ∧ ∃ r2 r2s, c'.states.st2 = some r2 ∧ c'.states.st2s = some r2s
          ∧ r2.T = r2s.T ∧ r2.h = r2s.h :=
  c9_efficiency_above_one_ideal c9Demo
    { p := 100000, T := 293.15, v := specific_volume 100000 293.15 .air, h := 0, s := 0 }
    800000 rfl rfl (by show (1 : ℝ) ≤ 1.5; norm_num)

/-- Claim C10 (confirmed).  In the intercooled path with η_c ≥ 1 the
stored stage entropies are copied exactly from their predecessors:
`s2a = s1` and `s2c = s2b` (the `else` branches of the two efficiency
tests), not recomputed through the `Δs = cp·ln − R·ln` formula that the
single-stage η_c = 1 path still applies to state 2 (see Claim C3's
theorem for that formula). -/
theorem c10_intercooled_entropy_copies (c : JouleProcessCalculator)
    (r1 : State) (p2 : ℝ)
    (h1 : c.states.st1 = some r1) (hic : c.intercooling = true)
    (hη : 1 ≤ c.compressor_efficiency) :
    ∃ c', calculate_state_2 c p2 = .ok c'
      ∧ ∃ r2a r2b r2c, c'.states.st2a = some r2a ∧ c'.states.st2b = some r2b
          ∧ c'.states.st2c = some r2c ∧ r2a.s = r1.s ∧ r2c.s = r2b.s := by
  have hη' : ¬(c.compressor_efficiency < 1) := not_lt.mpr hη
  simp only [calculate_state_2, calculate_state_2_with_intercooling, hic, if_true, h1, hη']
  exact ⟨_, rfl, _, _, _, rfl, rfl, rfl, rfl, rfl⟩

/-- A solver with state 1 present, intercooling enabled and η_c = 1. -/
def c10Demo : JouleProcessCalculator :=
  { initCalc .air true with
    intercooling := true,
    states := { emptyStates with
      st1 := some { p := 100000, T := 293.15,
                    v := specific_volume 100000 293.15 .air, h := 0, s := 0 } } }

/-- Witness for C10's theorem on `c10Demo`. -/
theorem c10_intercooled_entropy_copies_witness :
    ∃ c', calculate_state_2 c10Demo 800000 = .ok c'
      ∧ ∃ r2a r2b r2c, c'.states.st2a = some r2a ∧ c'.states.st2b = some r2b
          ∧ c'.states.st2c = some r2c ∧ r2a.s = (0 : ℝ) ∧ r2c.s = r2b.s :=
  c10_intercooled_entropy_copies c10Demo
    { p := 100000, T := 293.15, v := specific_volume 100000 293.15 .air, h := 0, s := 0 }
    800000 rfl rfl (by show (1 : ℝ) ≤ 1.0; norm_num)

end

end JouleProc
